import Mathlib

/-!
# Secure-Chat: verification of the real-time session layer

Shallow embedding of the repository's core modules:

* `src/lib/crypto.ts` — the Cipher Module (`encrypt` / `decrypt`, AES-256-GCM
  serialized as `ivHex:tagHex:cipherHex`);
* `src/lib/auth.ts` — JWT helpers (`JWT_SECRET`, `signToken`, `verifyToken`);
* `src/server.ts` — the Socket.IO authentication middleware and the
  `join_room` / `send_message` event handlers;
* `src/app/api/rooms/[id]/verify/route.ts` — the room-password verification
  endpoint.

External libraries (node:crypto, jsonwebtoken, bcrypt) are modelled as explicit
function parameters; everything the repository's own files compute (hex
serialization, colon splitting, guards, control flow) is embedded concretely.
JavaScript strings are modelled as `List Char`, byte buffers as `List Nat`
(each element `< 256`).
-/

namespace SecureChat

/-! ## JS string primitives

`splitOnChar c s` models JavaScript `s.split(c)` for a one-character
separator: it always returns at least one (possibly empty) field, and
`n` separators yield `n + 1` fields. -/

def splitOnChar (c : Char) : List Char → List (List Char)
  | [] => [[]]
  | x :: xs =>
    if x = c then
      [] :: splitOnChar c xs
    else
      match splitOnChar c xs with
      | [] => [[x]]
      | h :: t => (x :: h) :: t

theorem splitOnChar_ne_nil (c : Char) (l : List Char) : splitOnChar c l ≠ [] := by
  induction l with
  | nil => simp [splitOnChar]
  | cons x xs ih =>
    simp only [splitOnChar]
    split
    · simp
    · cases hs : splitOnChar c xs <;> simp

theorem splitOnChar_no_sep (c : Char) (l : List Char) (h : c ∉ l) :
    splitOnChar c l = [l] := by
  induction l with
  | nil => rfl
  | cons x xs ih =>
    simp only [List.mem_cons, not_or] at h
    have hx : ¬ x = c := fun hxc => h.1 (hxc ▸ rfl)
    simp only [splitOnChar, if_neg hx, ih h.2]

theorem splitOnChar_append (c : Char) (a rest : List Char) (h : c ∉ a) :
    splitOnChar c (a ++ c :: rest) = a :: splitOnChar c rest := by
  induction a with
  | nil => simp [splitOnChar]
  | cons x xs ih =>
    simp only [List.mem_cons, not_or] at h
    have hx : ¬ x = c := fun hxc => h.1 (hxc ▸ rfl)
    simp only [List.cons_append, splitOnChar, if_neg hx, List.append_eq, ih h.2]

/-! ## Hex encoding (Node `Buffer` semantics)

`hexEncode` models `buf.toString("hex")` (lowercase pairs).  `hexDecode`
models `Buffer.from(str, "hex")`: it consumes two-character pairs and stops
at the first pair containing a non-hex character or at a trailing lone
character.  Hex digits are case-insensitive on decode, exactly as in Node. -/

def hexDigit (n : Nat) : Char :=
  if n < 10 then Char.ofNat (48 + n) else Char.ofNat (87 + n)

def hexEncodeByte (b : Nat) : List Char := [hexDigit (b / 16), hexDigit (b % 16)]

def hexEncode : List Nat → List Char
  | [] => []
  | b :: bs => hexEncodeByte b ++ hexEncode bs

def hexVal? (c : Char) : Option Nat :=
  if '0' ≤ c ∧ c ≤ '9' then some (c.toNat - 48)
  else if 'a' ≤ c ∧ c ≤ 'f' then some (c.toNat - 87)
  else if 'A' ≤ c ∧ c ≤ 'F' then some (c.toNat - 55)
  else none

def hexDecode : List Char → List Nat
  | c1 :: c2 :: rest =>
    match hexVal? c1, hexVal? c2 with
    | some hi, some lo => (16 * hi + lo) :: hexDecode rest
    | _, _ => []
  | _ => []

theorem hexVal_hexDigit (n : Nat) (h : n < 16) : hexVal? (hexDigit n) = some n := by
  interval_cases n <;> rfl

theorem hexDigit_ne_colon (n : Nat) (h : n < 16) : hexDigit n ≠ ':' := by
  interval_cases n <;> decide

theorem colon_not_mem_hexEncode (l : List Nat) (h : ∀ b ∈ l, b < 256) :
    ':' ∉ hexEncode l := by
  induction l with
  | nil => simp [hexEncode]
  | cons b bs ih =>
    have hb : b < 256 := h b (List.mem_cons_self b bs)
    have hhi : b / 16 < 16 := by omega
    have hlo : b % 16 < 16 := Nat.mod_lt _ (by omega)
    simp only [hexEncode, hexEncodeByte, List.cons_append, List.mem_cons, List.nil_append,
      not_or]
    refine ⟨fun hc => hexDigit_ne_colon _ hhi hc.symm,
            fun hc => hexDigit_ne_colon _ hlo hc.symm,
            ih (fun b hbm => h b (List.mem_cons_of_mem _ hbm))⟩

theorem hexEncode_ne_nil (l : List Nat) (h : l ≠ []) : hexEncode l ≠ [] := by
  cases l with
  | nil => exact absurd rfl h
  | cons b bs => simp [hexEncode, hexEncodeByte]

theorem hexDecode_hexEncode (l : List Nat) (h : ∀ b ∈ l, b < 256) :
    hexDecode (hexEncode l) = l := by
  induction l with
  | nil => rfl
  | cons b bs ih =>
    have hb : b < 256 := h b (List.mem_cons_self b bs)
    have hhi : b / 16 < 16 := by omega
    have hlo : b % 16 < 16 := Nat.mod_lt _ (by omega)
    have : hexEncode (b :: bs) = hexDigit (b / 16) :: hexDigit (b % 16) :: hexEncode bs := rfl
    rw [this]
    simp only [hexDecode, hexVal_hexDigit _ hhi, hexVal_hexDigit _ hlo]
    rw [ih (fun b hbm => h b (List.mem_cons_of_mem _ hbm))]
    congr 1
    omega

/-! ## Cipher Module (`src/lib/crypto.ts`)

The AES-256-GCM primitive and the scrypt key derivation live in `node:crypto`
and are modelled abstractly as the fields of `CipherParams`:

* `scrypt k` — `crypto.scryptSync(k, "salt", 32)` (deterministic);
* `aeadEnc key iv text` — the cipher run `createCipheriv("aes-256-gcm", key, iv)`
  over the UTF-8 bytes of `text`, returning `(authTag, ciphertext)`;
* `aeadDec key iv tag ct` — the corresponding decipher with `setAuthTag tag`;
  `none` models every thrown error (tag mismatch, bad iv/tag length, bad hex),
  which the source catches.

Everything `crypto.ts` itself computes — the key-presence guards, the
`iv:tag:ciphertext` hex serialization, the colon split, the
three-nonempty-fields check and the catch-and-return-input behaviour — is
embedded concretely below. -/

structure CipherParams where
  scrypt : List Char → List Nat
  aeadEnc : List Nat → List Nat → List Char → List Nat × List Nat
  aeadDec : List Nat → List Nat → List Nat → List Nat → Option (List Char)

/-- `encrypt` from `src/lib/crypto.ts`.  `cfg` is
`process.env.MESSAGE_ENCRYPTION_KEY` (absent key ⇒ return the plaintext
unchanged); `iv` is the fresh 12-byte `crypto.randomBytes(12)` value, passed
in explicitly since it is drawn outside the function's own logic.  The
serialized form is `ivHex:tagHex:cipherHex`. -/
def encrypt (p : CipherParams) (cfg : Option (List Char)) (iv : List Nat)
    (text : List Char) : List Char :=
  match cfg with
  | none => text
  | some keyStr =>
    let key := p.scrypt keyStr
    let tc := p.aeadEnc key iv text
    hexEncode iv ++ ':' :: (hexEncode tc.1 ++ ':' :: hexEncode tc.2)

/-- The parsing phase of `decrypt`: the `includes(":")` guard, the
`split(":")`, the JS destructuring `[ivHex, authTagHex, contentHex]` of the
first three fields, and the falsy check `!ivHex || !authTagHex || !contentHex`
(a missing field destructures to `undefined`, which is also falsy). -/
def parseEncrypted (s : List Char) : Option (List Char × List Char × List Char) :=
  if ':' ∈ s then
    let parts := splitOnChar ':' s
    let ivHex := parts.getD 0 []
    let tagHex := parts.getD 1 []
    let ctHex := parts.getD 2 []
    if ivHex = [] ∨ tagHex = [] ∨ ctHex = [] then none
    else some (ivHex, tagHex, ctHex)
  else none

/-- `decrypt` from `src/lib/crypto.ts`.  Absent key or failed parse returns
the input unchanged; a caught cryptographic error (modelled by
`aeadDec … = none`) also returns the input unchanged. -/
def decrypt (p : CipherParams) (cfg : Option (List Char)) (s : List Char) : List Char :=
  match cfg with
  | none => s
  | some keyStr =>
    match parseEncrypted s with
    | none => s
    | some (ivHex, tagHex, ctHex) =>
      match p.aeadDec (p.scrypt keyStr) (hexDecode ivHex) (hexDecode tagHex)
          (hexDecode ctHex) with
      | some text => text
      | none => s

/-- Follows the spec's words (§4.4, claim C7): the serialized string
"contains exactly two colons separating three non-empty fields".  Used only
to compare the spec's guard with the code's actual guard (`parseEncrypted`). -/
def specWellFormedRecord (s : List Char) : Bool :=
  s.count ':' == 2 && (splitOnChar ':' s).all (fun f => !f.isEmpty)

/-- A `CipherParams` instance whose decryption oracle always succeeds with a
fixed output; used only to witness that a code path consults the oracle. -/
def probeParams : CipherParams where
  scrypt := fun _ => []
  aeadEnc := fun _ _ _ => ([], [])
  aeadDec := fun _ _ _ _ => some ['!']

/-- A small concrete `CipherParams` instance: like AES-256-GCM it is
length-preserving, produces a 16-byte tag, and its decryption succeeds
exactly when the tag matches. Used to evaluate theorems on concrete input. -/
def toyParams : CipherParams where
  scrypt := fun _ => [0]
  aeadEnc := fun _ _ text => (List.replicate 16 1, text.map (fun c => c.toNat % 256))
  aeadDec := fun _ _ tag ct =>
    if tag = List.replicate 16 1 then some (ct.map (fun b => Char.ofNat b)) else none

/-! ## JWT helpers (`src/lib/auth.ts`)

The `jsonwebtoken` library is external: `jwtSign p secret` models
`jwt.sign(payload, secret, { expiresIn: "7d" })` and `jwtVerify t secret`
models `jwt.verify(token, secret)` with the `catch` that turns every
verification error (bad signature, expired, malformed) into `null`.
What `auth.ts` itself contributes — the shared fallback constant and the
use of the same `JWT_SECRET` on both sides — is embedded concretely. -/

structure JwtPayload where
  userId : String
  username : String
deriving DecidableEq

/-- `const JWT_SECRET = process.env.JWT_SECRET ?? "fallback-secret-change-me"`. -/
def JWT_SECRET (env : Option String) : String :=
  env.getD ("fallback-secret-change-me")

/-- `signToken` from `src/lib/auth.ts`. -/
def signToken (jwtSign : JwtPayload → String → String) (env : Option String)
    (p : JwtPayload) : String :=
  jwtSign p (JWT_SECRET env)

/-- `verifyToken` from `src/lib/auth.ts`. -/
def verifyToken (jwtVerify : String → String → Option JwtPayload) (env : Option String)
    (token : String) : Option JwtPayload :=
  jwtVerify token (JWT_SECRET env)

/-! ## Cookie parsing (the `cookie` package, as used by `src/server.ts`)

`parse(cookieHeader)` splits on `;`, takes the text before the first `=` as
the (trimmed) name and the rest as the (trimmed) value, and skips segments
without `=`.  URI-decoding of values is the identity on the token values the
server reads and is omitted. -/

def trimChars (l : List Char) : List Char :=
  ((l.dropWhile (fun c => c = ' ')).reverse.dropWhile (fun c => c = ' ')).reverse

def splitPair (part : List Char) : Option (List Char × List Char) :=
  match part.dropWhile (fun c => c ≠ '=') with
  | [] => none
  | _ :: v => some (trimChars (part.takeWhile (fun c => c ≠ '=')), trimChars v)

def parseCookies (h : List Char) : List (List Char × List Char) :=
  (splitOnChar ';' h).filterMap splitPair

def getCookie (h : List Char) (name : List Char) : Option (List Char) :=
  (parseCookies h).lookup name

/-! ## Socket.IO server (`src/server.ts`) -/

/-- The name of the cookie the middleware reads: `cookies.token`. -/
def tokenName : List Char := ['t', 'o', 'k', 'e', 'n']

/-- Result of the connection middleware: `next(new Error(msg))` rejects the
handshake (socket.io refuses the connection and dispatches no events for it);
`next()` after `(socket as any).user = payload` accepts it with the verified
identity bound to the socket. -/
inductive AuthResult where
  | rejected (msg : String)
  | connected (user : JwtPayload)
deriving DecidableEq

/-- The `io.use` authentication middleware from `src/server.ts`:
missing cookie header, missing/empty `token` cookie (`!token` is true for
both `undefined` and `""`), or failed verification each reject the handshake
before any event handler can run. -/
def authMiddleware (jwtVerify : String → String → Option JwtPayload)
    (env : Option String) (cookieHeader : Option (List Char)) : AuthResult :=
  match cookieHeader with
  | none => .rejected ("Authentication error: No cookies found")
  | some h =>
    match getCookie h tokenName with
    | none => .rejected ("Authentication error: Token not found")
    | some tok =>
      if tok.isEmpty then .rejected ("Authentication error: Token not found")
      else
        match verifyToken jwtVerify env (String.mk tok) with
        | none => .rejected ("Authentication error: Invalid token")
        | some payload => .connected payload

/-- Event handlers are registered inside `io.on("connection", …)`, which
socket.io invokes only for sockets the middleware accepted. -/
def handlersReached : AuthResult → Bool
  | .connected _ => true
  | .rejected _ => false

/-- The identity state attached to the socket (`(socket as any).user`);
nothing is attached on a rejected attempt. -/
def boundIdentity : AuthResult → Option JwtPayload
  | .connected u => some u
  | .rejected _ => none

/-- A persisted message row as returned by `prisma.message.create` with the
`include` clause selecting the author's username. -/
structure SavedMessage where
  id : String
  text : String
  userId : String
  roomId : String
  username : String
deriving DecidableEq

/-- Events the server can emit to clients.  `roomMembers` is the
`room_members` presence broadcast the client page listens for; the handlers
in `src/server.ts` never construct it. -/
inductive ServerEmit where
  | receiveMessage (roomId : String) (msg : SavedMessage)
  | roomMembers (roomId : String) (members : List JwtPayload)
deriving DecidableEq

/-- The `join_room` handler from `src/server.ts`: the socket leaves every
room in `socket.rooms` except its own private `socket.id` channel, then joins
`roomId`; the only other statement is a `console.log`.  Returns the socket's
new room set (socket.io keeps `socket.id` in `socket.rooms`; membership of a
room is what makes `io.to(room)` deliver to this socket) and the list of
events emitted to clients. -/
def joinRoomHandler (sid : String) (rooms : List String) (roomId : String) :
    List String × List ServerEmit :=
  (roomId :: rooms.filter (fun r => r == sid), [])

/-- `io.to(targetRoom).emit(…)` reaches a socket exactly when `targetRoom`
is in the socket's room set. -/
def deliversTo (socketRooms : List String) (targetRoom : String) : Prop :=
  targetRoom ∈ socketRooms

instance (socketRooms : List String) (targetRoom : String) :
    Decidable (deliversTo socketRooms targetRoom) :=
  inferInstanceAs (Decidable (targetRoom ∈ socketRooms))

/-- The payload of a `send_message` event. -/
structure SendPayload where
  text : String
  roomId : String
deriving DecidableEq

/-- The row passed to `prisma.message.create` in the `send_message` handler:
`{ text, userId: user.userId, roomId }` — `text` is the payload text as
received, and the identity comes from the socket's bound user. -/
structure MessageRecord where
  text : String
  userId : String
  roomId : String
deriving DecidableEq

def createRecord (user : JwtPayload) (data : SendPayload) : MessageRecord :=
  { text := data.text, userId := user.userId, roomId := data.roomId }

/-- Observable outcome of one `send_message` event: the record handed to the
persistence store, the events emitted, and the server-side console output. -/
structure SendOutcome where
  record : MessageRecord
  emits : List ServerEmit
  logs : List String
deriving DecidableEq

/-- The `send_message` handler from `src/server.ts`.  `create` is the
external `prisma.message.create` call: on success the saved row is broadcast
as `receive_message` to the payload's room; a rejected promise lands in the
`catch`, which only logs — nothing is emitted, to the room or back to the
sender. -/
def sendMessageHandler (user : JwtPayload) (data : SendPayload)
    (create : MessageRecord → Except String SavedMessage) : SendOutcome :=
  match create (createRecord user data) with
  | .ok saved =>
    { record := createRecord user data
      emits := [ServerEmit.receiveMessage data.roomId saved]
      logs := [] }
  | .error e =>
    { record := createRecord user data
      emits := []
      logs := ["Error saving message: " ++ e] }

/-! ## Room password verification (`src/app/api/rooms/[id]/verify/route.ts`)

`cmp` models the external `comparePassword` (bcrypt.compare).  `auth` is the
result of `getTokenFromRequest`, `room` the result of
`prisma.room.findUnique`, and `password` the `password` field of the parsed
JSON body (`none` for a missing field; JS `!password` is also true for
`""`).  A body that fails to parse as JSON (500) is outside this model. -/

structure Room where
  id : String
  passwordHash : Option String
deriving DecidableEq

inductive ApiResponse where
  | json (status : Nat) (valid : Bool)
  | error (status : Nat) (message : String)
deriving DecidableEq

def verifyRoomPOST (cmp : String → String → Bool) (auth : Option JwtPayload)
    (room : Option Room) (password : Option String) : ApiResponse :=
  match auth with
  | none => .error 401 ("Unauthorized")
  | some _ =>
    match room with
    | none => .error 404 ("Room not found")
    | some r =>
      match r.passwordHash with
      | none => .json 200 true
      | some hsh =>
        match password with
        | none => .error 400 ("Password required")
        | some pw =>
          if pw = "" then .error 400 ("Password required")
          else if cmp pw hsh then .json 200 true
          else .error 401 ("Invalid password")

/-! ## Claim theorems -/

/-- C1 (code_bug evidence): the record the `send_message` handler passes to
`prisma.message.create` carries the payload's `text` verbatim — the plaintext,
not a ciphertext; `src/server.ts` never invokes the Cipher Module on the
write path. -/
theorem claim_C1_plaintext_record (user : JwtPayload) (data : SendPayload)
    (create : MessageRecord → Except String SavedMessage) :
    (sendMessageHandler user data create).record.text = data.text := by
  unfold sendMessageHandler
  cases create (createRecord user data) <;> rfl

/-- C2 (code_bug evidence): the `join_room` handler of `src/server.ts` emits
no event at all — in particular it never recomputes or broadcasts a
`room_members` membership list, deduplicated or otherwise. -/
theorem claim_C2_no_member_broadcast (sid : String) (rooms : List String) (roomId : String) :
    (joinRoomHandler sid rooms roomId).2 = [] := rfl

/-- C3 counterexample: for the empty plaintext the ciphertext field of the
serialized record is empty (AES-256-GCM is length-preserving), so `decrypt`
fails the three-nonempty-fields guard and returns the serialized record
`ivHex:tagHex:` unchanged instead of recovering `""`. -/
theorem claim_C3_counterexample :
    decrypt toyParams (some ['k'])
      (encrypt toyParams (some ['k']) (List.replicate 12 0) []) ≠ [] := by
  decide

/-- C3 (amended): for every nonempty plaintext under a configured key,
`decrypt (encrypt text) = text`.  The AES-GCM/scrypt primitive is abstract;
the hypotheses record exactly what `node:crypto` guarantees: a 12-byte
random iv, a nonempty (16-byte) tag, byte-valued outputs, a ciphertext that
is nonempty because the plaintext is, and the AEAD round-trip itself. -/
theorem claim_C3_roundtrip_nonempty (p : CipherParams) (keyStr : List Char) (iv : List Nat)
    (text : List Char) (tag ct : List Nat)
    (henc : p.aeadEnc (p.scrypt keyStr) iv text = (tag, ct))
    (hiv : iv ≠ []) (hivB : ∀ b ∈ iv, b < 256)
    (htag : tag ≠ []) (htagB : ∀ b ∈ tag, b < 256)
    (hct : ct ≠ []) (hctB : ∀ b ∈ ct, b < 256)
    (hdec : p.aeadDec (p.scrypt keyStr) iv tag ct = some text) :
    decrypt p (some keyStr) (encrypt p (some keyStr) iv text) = text := by
  have hser : encrypt p (some keyStr) iv text
      = hexEncode iv ++ ':' :: (hexEncode tag ++ ':' :: hexEncode ct) := by
    simp [encrypt, henc]
  have hmem : ':' ∈ hexEncode iv ++ ':' :: (hexEncode tag ++ ':' :: hexEncode ct) :=
    List.mem_append_right _ (List.mem_cons_self _ _)
  have hsplit : splitOnChar ':' (hexEncode iv ++ ':' :: (hexEncode tag ++ ':' :: hexEncode ct))
      = [hexEncode iv, hexEncode tag, hexEncode ct] := by
    rw [splitOnChar_append _ _ _ (colon_not_mem_hexEncode iv hivB),
      splitOnChar_append _ _ _ (colon_not_mem_hexEncode tag htagB),
      splitOnChar_no_sep _ _ (colon_not_mem_hexEncode ct hctB)]
  have hparse : parseEncrypted (hexEncode iv ++ ':' :: (hexEncode tag ++ ':' :: hexEncode ct))
      = some (hexEncode iv, hexEncode tag, hexEncode ct) := by
    simp only [parseEncrypted, if_pos hmem, hsplit, List.getD]
    simp [hexEncode_ne_nil iv hiv, hexEncode_ne_nil tag htag, hexEncode_ne_nil ct hct]
  rw [hser]
  simp only [decrypt, hparse, hexDecode_hexEncode iv hivB, hexDecode_hexEncode tag htagB,
    hexDecode_hexEncode ct hctB, hdec]

/-- C3 witness: the amended round-trip evaluated on the concrete plaintext
`"hi"` with a concrete length-preserving AEAD instance. -/
theorem claim_C3_witness :
    decrypt toyParams (some ['k'])
      (encrypt toyParams (some ['k']) (List.replicate 12 0) ['h', 'i']) = ['h', 'i'] :=
  claim_C3_roundtrip_nonempty toyParams ['k'] (List.replicate 12 0) ['h', 'i']
    (List.replicate 16 1) [104, 105] (by decide) (by decide) (by decide) (by decide)
    (by decide) (by decide) (by decide) (by decide)

/-- The serialized record `encrypt` produces for the one-byte plaintext
`[Char.ofNat 171]` under `toyParams` (`00…00:0101…01:ab`); used only in the
C6 counterexample. -/
def c6Serialized : List Char :=
  encrypt toyParams (some ['k']) (List.replicate 12 0) [Char.ofNat 171]

/-- `c6Serialized` with the first ciphertext-field character flipped from
`'a'` to `'A'` — a different character that hex-decodes to the same byte,
because Node's `Buffer.from(…, "hex")` is case-insensitive. -/
def c6Tampered : List Char := List.set c6Serialized 58 'A'

/-- C6 counterexample: flipping the ciphertext-field character `'a'` (at
index 58, just after the second colon) to `'A'` yields a modified serialized
string whose fields decode to the very same bytes, so `decrypt` succeeds and
returns the original plaintext — not the modified serialized string the
claim requires. -/
theorem claim_C6_counterexample :
    c6Serialized.getD 58 ' ' = 'a'
  ∧ c6Tampered ≠ c6Serialized
  ∧ decrypt toyParams (some ['k']) c6Tampered = [Char.ofNat 171]
  ∧ decrypt toyParams (some ['k']) c6Tampered ≠ c6Tampered := by
  decide

/-- C6 (amended): whenever the parsed fields of a (possibly tampered)
serialized string fail authenticated decryption — which AES-256-GCM
guarantees, except with negligible probability, for any flip that changes
the decoded tag or ciphertext bytes, and for decryption under a different
configured key — `decrypt` returns its input unchanged and never throws.
(Flips that only change a hex digit's letter case decode to the same bytes
and are excluded by the counterexample.) -/
theorem claim_C6_tamper_fail_closed (p : CipherParams) (keyStr s a b c : List Char)
    (hparse : parseEncrypted s = some (a, b, c))
    (hdec : p.aeadDec (p.scrypt keyStr) (hexDecode a) (hexDecode b) (hexDecode c) = none) :
    decrypt p (some keyStr) s = s := by
  simp only [decrypt, hparse, hdec]

/-- A serialized record whose tag field was rewritten wholesale (all `02`
bytes), so the `toyParams` tag check fails; used only in the C6 witness. -/
def c6WitnessStr : List Char :=
  hexEncode (List.replicate 12 0) ++ ':' :: (hexEncode (List.replicate 16 2) ++ ':' :: ['a', 'b'])

/-- C6 witness: a concrete tampered record whose tag no longer verifies is
returned unchanged by `decrypt`. -/
theorem claim_C6_witness :
    decrypt toyParams (some ['k']) c6WitnessStr = c6WitnessStr :=
  claim_C6_tamper_fail_closed toyParams ['k'] c6WitnessStr
    (hexEncode (List.replicate 12 0)) (hexEncode (List.replicate 16 2)) ['a', 'b']
    (by decide) (by decide)

/-- C7 counterexample: `"a:b:c:d"` does not consist of exactly two colons
separating three non-empty fields (it has three colons), yet the code's
guard accepts it — the JS destructuring keeps the first three of the four
split fields — and authenticated decryption is attempted on them, as the
probe oracle observes.  (With the real cipher that attempt fails and the
input is still returned unchanged, but the claim's "without attempting
cryptographic decryption" is violated.) -/
theorem claim_C7_counterexample :
    specWellFormedRecord ['a', ':', 'b', ':', 'c', ':', 'd'] = false
  ∧ parseEncrypted ['a', ':', 'b', ':', 'c', ':', 'd'] = some (['a'], ['b'], ['c'])
  ∧ decrypt probeParams (some ['k']) ['a', ':', 'b', ':', 'c', ':', 'd'] = ['!'] := by
  decide

/-- C7 (amended): if no key is configured, or the string contains no colon,
or any of the first three colon-separated fields is empty or missing,
`decrypt` returns its input unchanged without consulting the cryptographic
primitive.  (The code's guard is weaker than the spec's "exactly two
colons": extra-colon strings are attempted, per the counterexample.) -/
theorem claim_C7_guard_returns_input (p : CipherParams) (cfg : Option (List Char))
    (s : List Char) (h : cfg = none ∨ parseEncrypted s = none) :
    decrypt p cfg s = s := by
  rcases h with h | h
  · subst h; rfl
  · cases cfg with
    | none => rfl
    | some k => simp [decrypt, h]

/-- C7 witness: a colon-free string under a configured key is returned
unchanged. -/
theorem claim_C7_witness :
    decrypt toyParams (some ['k']) ['h', 'e', 'l', 'l', 'o'] = ['h', 'e', 'l', 'l', 'o'] :=
  claim_C7_guard_returns_input toyParams (some ['k']) ['h', 'e', 'l', 'l', 'o']
    (Or.inr (by decide))

/-- C4: the authentication middleware rejects — with a single
authentication-error signal, before any event handler can run and with no
identity state attached — every handshake with a missing cookie header, a
missing or empty `token` cookie, or a token that verification rejects; and
on a valid token it binds exactly the verified payload to the socket. -/
theorem claim_C4_auth_gate (jwtVerify : String → String → Option JwtPayload)
    (env : Option String) (cookieHeader : Option (List Char)) :
    (cookieHeader = none →
      authMiddleware jwtVerify env cookieHeader
        = .rejected ("Authentication error: No cookies found"))
  ∧ (∀ h, cookieHeader = some h →
      getCookie h tokenName = none ∨ getCookie h tokenName = some [] →
      authMiddleware jwtVerify env cookieHeader
        = .rejected ("Authentication error: Token not found"))
  ∧ (∀ h tok, cookieHeader = some h → getCookie h tokenName = some tok → tok ≠ [] →
      jwtVerify (String.mk tok) (JWT_SECRET env) = none →
      authMiddleware jwtVerify env cookieHeader
        = .rejected ("Authentication error: Invalid token"))
  ∧ (∀ msg, authMiddleware jwtVerify env cookieHeader = .rejected msg →
      handlersReached (authMiddleware jwtVerify env cookieHeader) = false
        ∧ boundIdentity (authMiddleware jwtVerify env cookieHeader) = none)
  ∧ (∀ h tok p, cookieHeader = some h → getCookie h tokenName = some tok → tok ≠ [] →
      jwtVerify (String.mk tok) (JWT_SECRET env) = some p →
      authMiddleware jwtVerify env cookieHeader = .connected p
        ∧ boundIdentity (authMiddleware jwtVerify env cookieHeader) = some p) := by
  refine ⟨?_, ?_, ?_, ?_, ?_⟩
  · intro hch
    subst hch
    rfl
  · intro h hch hc
    subst hch
    rcases hc with hc | hc <;> simp [authMiddleware, hc]
  · intro h tok hch hc hne hv
    subst hch
    cases tok with
    | nil => exact absurd rfl hne
    | cons a t => simp [authMiddleware, hc, verifyToken, hv]
  · intro msg hrej
    rw [hrej]
    exact ⟨rfl, rfl⟩
  · intro h tok p hch hc hne hv
    subst hch
    cases tok with
    | nil => exact absurd rfl hne
    | cons a t =>
      constructor <;> simp [authMiddleware, boundIdentity, hc, verifyToken, hv]

/-- A stand-in for `jwt.verify` accepting exactly one token under the
fallback secret; used only in the C4 witness. -/
def jwtVerifyStub : String → String → Option JwtPayload := fun t s =>
  if t == "tok1" && s == "fallback-secret-change-me" then some ⟨"u1", "alice"⟩ else none

/-- C4 witness: with `JWT_SECRET` unset, the handshake header
`"token=tok1"` passes the middleware and binds the verified identity. -/
theorem claim_C4_witness :
    authMiddleware jwtVerifyStub none (some ("token=tok1".data)) = .connected ⟨"u1", "alice"⟩
      ∧ boundIdentity (authMiddleware jwtVerifyStub none (some ("token=tok1".data)))
        = some ⟨"u1", "alice"⟩ :=
  (claim_C4_auth_gate jwtVerifyStub none (some ("token=tok1".data))).2.2.2.2
    ("token=tok1".data) ['t', 'o', 'k', '1'] ⟨"u1", "alice"⟩ rfl (by decide) (by decide)
    (by decide)

/-- C5: if the persistence create call fails, the `send_message` handler
logs the error and aborts — no `receive_message` broadcast and no failure
signal of any kind is emitted; the broadcast to the payload's room happens
exactly when the create call succeeds. -/
theorem claim_C5_persist_failure (user : JwtPayload) (data : SendPayload)
    (create : MessageRecord → Except String SavedMessage) :
    (∀ e, create (createRecord user data) = .error e →
      (sendMessageHandler user data create).emits = []
        ∧ (sendMessageHandler user data create).logs = ["Error saving message: " ++ e])
  ∧ (∀ saved, create (createRecord user data) = .ok saved →
      (sendMessageHandler user data create).emits
          = [ServerEmit.receiveMessage data.roomId saved]
        ∧ (sendMessageHandler user data create).logs = []) := by
  constructor
  · intro e he
    constructor <;> simp [sendMessageHandler, he]
  · intro saved hs
    constructor <;> simp [sendMessageHandler, hs]

/-- A persistence stub whose create call always rejects; used only in the
C5 witness. -/
def createFailStub : MessageRecord → Except String SavedMessage :=
  fun _ => .error ("database unreachable")

/-- C5 witness: a concrete failing create call yields no emission and one
server-side log line. -/
theorem claim_C5_witness :
    (sendMessageHandler ⟨"u1", "alice"⟩ ⟨"hi", "general"⟩ createFailStub).emits = []
      ∧ (sendMessageHandler ⟨"u1", "alice"⟩ ⟨"hi", "general"⟩ createFailStub).logs
        = ["Error saving message: " ++ "database unreachable"] :=
  (claim_C5_persist_failure ⟨"u1", "alice"⟩ ⟨"hi", "general"⟩ createFailStub).1
    ("database unreachable") rfl

/-- C8: on `join_room roomId` the socket is removed from every previously
joined room other than its private `socket.id` channel before joining
`roomId`; afterwards it belongs to no room besides `socket.id` and `roomId`,
and a broadcast to a vacated room `A` is not delivered to it. -/
theorem claim_C8_room_transition (sid : String) (rooms : List String) (roomId A : String)
    (hA1 : A ≠ sid) (hA2 : A ≠ roomId) :
    A ∉ (joinRoomHandler sid rooms roomId).1
  ∧ (∀ r ∈ (joinRoomHandler sid rooms roomId).1, r = sid ∨ r = roomId)
  ∧ ¬ deliversTo (joinRoomHandler sid rooms roomId).1 A := by
  have hmem : A ∉ (joinRoomHandler sid rooms roomId).1 := by
    simp only [joinRoomHandler, List.mem_cons, List.mem_filter, beq_iff_eq]
    rintro (h | ⟨-, h⟩)
    · exact hA2 h
    · exact hA1 h
  refine ⟨hmem, ?_, hmem⟩
  intro r hr
  simp only [joinRoomHandler, List.mem_cons, List.mem_filter, beq_iff_eq] at hr
  rcases hr with h | ⟨-, h⟩
  · exact Or.inr h
  · exact Or.inl h

/-- C8 witness: a socket in room `"roomA"` that joins `"roomB"` is no
longer reachable by broadcasts to `"roomA"`. -/
theorem claim_C8_witness :
    ("roomA" ∉ (joinRoomHandler ("s1") [("s1"), ("roomA")] ("roomB")).1)
      ∧ ¬ deliversTo (joinRoomHandler ("s1") [("s1"), ("roomA")] ("roomB")).1 ("roomA") := by
  have h := claim_C8_room_transition ("s1") [("s1"), ("roomA")] ("roomB") ("roomA")
    (by decide) (by decide)
  exact ⟨h.1, h.2.2⟩

/-- C9: `verifyToken (signToken p)` recovers the payload for every
environment, including an unset `JWT_SECRET`, because both helpers read the
same module constant, which falls back to the hardcoded string
`"fallback-secret-change-me"`.  The hypothesis is the `jsonwebtoken`
sign/verify round-trip (valid within the 7-day expiry) at the derived
secret. -/
theorem claim_C9_token_roundtrip (jwtSign : JwtPayload → String → String)
    (jwtVerify : String → String → Option JwtPayload) (env : Option String)
    (p : JwtPayload)
    (h : jwtVerify (jwtSign p (JWT_SECRET env)) (JWT_SECRET env) = some p) :
    verifyToken jwtVerify env (signToken jwtSign env p) = some p
      ∧ JWT_SECRET none = "fallback-secret-change-me" :=
  ⟨h, rfl⟩

/-- A stand-in for `jwt.sign`; used only in the C9 witness. -/
def jwtSignStub : JwtPayload → String → String := fun p s => s ++ p.userId

/-- A stand-in for `jwt.verify` inverting `jwtSignStub` for one payload;
used only in the C9 witness. -/
def jwtVerifyRoundStub : String → String → Option JwtPayload := fun t s =>
  if t == s ++ "u1" then some ⟨"u1", "alice"⟩ else none

/-- C9 witness: with `JWT_SECRET` unset, signing and verifying the payload
`{userId := "u1", username := "alice"}` round-trips through the fallback
secret. -/
theorem claim_C9_witness :
    verifyToken jwtVerifyRoundStub none (signToken jwtSignStub none ⟨"u1", "alice"⟩)
        = some ⟨"u1", "alice"⟩
      ∧ JWT_SECRET none = "fallback-secret-change-me" :=
  claim_C9_token_roundtrip jwtSignStub jwtVerifyRoundStub none ⟨"u1", "alice"⟩ (by decide)

/-- C10: for an authenticated request on an existing room without a
`passwordHash`, the response is `{valid := true}` whatever the supplied
password (absent, empty, or arbitrary); for a protected room a missing or
empty password yields a 400 before any hash comparison; and in all those
cases the response does not depend on the compare function at all. -/
theorem claim_C10_passwordless_room (cmp cmp2 : String → String → Bool) (u : JwtPayload)
    (r : Room) (pw : Option String) :
    (r.passwordHash = none → verifyRoomPOST cmp (some u) (some r) pw = .json 200 true)
  ∧ (∀ hsh, r.passwordHash = some hsh → pw = none ∨ pw = some "" →
      verifyRoomPOST cmp (some u) (some r) pw = .error 400 ("Password required"))
  ∧ (r.passwordHash = none ∨ pw = none ∨ pw = some "" →
      verifyRoomPOST cmp (some u) (some r) pw = verifyRoomPOST cmp2 (some u) (some r) pw) := by
  refine ⟨?_, ?_, ?_⟩
  · intro h
    simp [verifyRoomPOST, h]
  · intro hsh hh hpw
    rcases hpw with h | h <;> subst h <;> simp [verifyRoomPOST, hh]
  · intro hc
    rcases hc with h | h | h
    · simp [verifyRoomPOST, h]
    · subst h
      cases hr : r.passwordHash <;> simp [verifyRoomPOST, hr]
    · subst h
      cases hr : r.passwordHash <;> simp [verifyRoomPOST, hr]

/-- C10 witness: an arbitrary password against a passwordless room verifies,
even under a compare function that always rejects. -/
theorem claim_C10_witness :
    verifyRoomPOST (fun _ _ => false) (some ⟨"u1", "alice"⟩) (some ⟨"r1", none⟩)
      (some ("anything")) = .json 200 true :=
  (claim_C10_passwordless_room (fun _ _ => false) (fun _ _ => true) ⟨"u1", "alice"⟩
    ⟨"r1", none⟩ (some ("anything"))).1 rfl

end SecureChat
